import Mathlib

/-!
Shallow embedding of the payroll reconciliation engine of `bolt-api`
(`src/routes/reconciliation.js` together with the `Database` model).
Numbers that the JavaScript source handles as IEEE doubles are modelled as
rationals (`ℚ`); nullable SQL columns are modelled as `Option` fields; the
JavaScript `x || d` fallback on numbers is modelled explicitly (it replaces
`undefined`, `NaN` and `0` by the default `d`).  Table rows are Lean
structures, tables are lists, and every route handler or helper function of
the source becomes a pure Lean function over those lists.
-/

namespace BoltApi

/-- Row of the `payroll_periods` table (dates are modelled as integer day
numbers). -/
structure PayrollPeriod where
  id : Nat
  period_name : String
  start_date : Int
  end_date : Int
  status : String
deriving DecidableEq

/-- Row of the `employees` table (the fields the reconciliation routes read).
`hourly_rate` is nullable in the schema and guarded by `|| 0` in the source,
hence an `Option`. -/
structure Employee where
  id : Nat
  employee_number : String
  first_name : String
  last_name : String
  department : String
  hourly_rate : Option ℚ
  salary : ℚ
  pay_type : String
  is_active : Bool
deriving DecidableEq

/-- Row of the `payroll_entries` table.  `hours_worked` and `overtime_hours`
are guarded by `|| 0` in the source, hence `Option`. -/
structure PayrollEntry where
  employee_id : Nat
  payroll_period_id : Nat
  hours_worked : Option ℚ
  overtime_hours : Option ℚ
  basic_pay : ℚ
  gross_pay : ℚ
  total_deductions : ℚ
  net_pay : ℚ
  sss_deduction : ℚ
  philhealth_deduction : ℚ
  pagibig_deduction : ℚ
deriving DecidableEq

/-- Row of the `time_entries` table (the fields the attendance query reads). -/
structure TimeEntry where
  employee_id : Nat
  date : Int
  regular_hours : Option ℚ
  overtime_hours : Option ℚ
  status : String
deriving DecidableEq

/-- Row of the `system_settings` table after `parseFloat(setting_value)`:
`none` models a value whose text does not parse to a number (`NaN`). -/
structure SystemSetting where
  setting_key : String
  setting_value : Option ℚ
deriving DecidableEq

/-- One discrepancy candidate as pushed onto `reconciliationResults` by the
detector helpers of `reconciliation.js`. -/
structure Discrepancy where
  type : String
  employee_id : Nat
  discrepancy_type : String
  expected_value : ℚ
  actual_value : ℚ
  variance : ℚ
  description : String
deriving DecidableEq

/-- Persisted row of the `reconciliation_logs` table.  A freshly inserted row
has `status = "pending"` (schema default) and empty resolution metadata. -/
structure ReconLog where
  id : Nat
  payroll_period_id : Nat
  reconciliation_type : String
  employee_id : Nat
  discrepancy_type : String
  expected_value : ℚ
  actual_value : ℚ
  variance : ℚ
  description : String
  status : String
  resolved_by : Option Nat
  resolved_at : Option Int
  resolution_notes : Option String
deriving DecidableEq

/-- The tables the reconciliation routes read.  Ids are primary keys, so a
lookup by id is modelled by `List.find?`. -/
structure DB where
  payroll_periods : List PayrollPeriod
  employees : List Employee
  payroll_entries : List PayrollEntry
  time_entries : List TimeEntry
  system_settings : List SystemSetting
deriving DecidableEq

/-- JavaScript `v || d` on a nullable number: `null`/`undefined` and `0` are
falsy and yield the default. -/
def jsOrQ (v : Option ℚ) (d : ℚ) : ℚ :=
  match v with
  | some x => if x = 0 then d else x
  | none => d

/-- JavaScript `v || d` where `v` may be absent (`undefined`, outer `none`),
present but `NaN` (`some none`), or a parsed number: `undefined`, `NaN` and
`0` are all falsy and yield the default. -/
def jsNumOr (v : Option (Option ℚ)) (d : ℚ) : ℚ :=
  match v with
  | some (some x) => if x = 0 then d else x
  | some none => d
  | none => d

/-- SQL `SUM` over a nullable column followed by `|| 0` in the source: `NULL`
values are ignored and an empty sum is `0`. -/
def sumOptQ (l : List (Option ℚ)) : ℚ :=
  (l.map (fun o => o.getD 0)).sum

/-- The interpolated employee tag used by the discrepancy descriptions. -/
def employeeTag (e : Employee) : String :=
  e.first_name ++ " " ++ e.last_name ++ " (" ++ e.employee_number ++ ")"

/-- `calculateExpectedGrossPay` of `reconciliation.js` (lines 428-436); the
row it receives joins `payroll_entries` with `employees`, so it is given both
records here. -/
def calculateExpectedGrossPay (e : Employee) (pe : PayrollEntry) : ℚ :=
  if e.pay_type = "salary" then
    e.salary / 26
  else
    jsOrQ pe.hours_worked 0 * jsOrQ e.hourly_rate 0 +
      jsOrQ pe.overtime_hours 0 * jsOrQ e.hourly_rate 0 * 1.5

/-- Expected net pay as computed inside `runPayrollReconciliation`:
`entry.gross_pay - entry.total_deductions`. -/
def expectedNetPay (pe : PayrollEntry) : ℚ :=
  pe.gross_pay - pe.total_deductions

/-- Body of the `for` loop of `runPayrollReconciliation` for one joined row:
the gross-pay check followed by the net-pay check. -/
def payrollChecksFor (e : Employee) (pe : PayrollEntry) : List Discrepancy :=
  let expectedGrossPay := calculateExpectedGrossPay e pe
  (if |pe.gross_pay - expectedGrossPay| > 0.01 then
    [{ type := "payroll", employee_id := pe.employee_id,
       discrepancy_type := "gross_pay_mismatch",
       expected_value := expectedGrossPay, actual_value := pe.gross_pay,
       variance := pe.gross_pay - expectedGrossPay,
       description := "Gross pay mismatch for " ++ employeeTag e }]
  else []) ++
  (if |pe.net_pay - expectedNetPay pe| > 0.01 then
    [{ type := "payroll", employee_id := pe.employee_id,
       discrepancy_type := "net_pay_mismatch",
       expected_value := expectedNetPay pe, actual_value := pe.net_pay,
       variance := pe.net_pay - expectedNetPay pe,
       description := "Net pay calculation error for " ++ employeeTag e }]
  else [])

/-- `runPayrollReconciliation` (lines 240-286): entries of the period joined
with their employee (inner join), each row checked for gross and net pay. -/
def runPayrollReconciliation (periodId : Nat) (db : DB) : List Discrepancy :=
  (db.payroll_entries.filter (fun pe => pe.payroll_period_id == periodId)).flatMap
    (fun pe =>
      match db.employees.find? (fun e => e.id == pe.employee_id) with
      | some e => payrollChecksFor e pe
      | none => [])

/-- Predicate of the attendance query's `LEFT JOIN time_entries` clause:
same employee, date within the period, status completed. -/
def attendanceEligible (startD endD : Int) (eId : Nat) (t : TimeEntry) : Bool :=
  t.employee_id == eId && decide (startD ≤ t.date) && decide (t.date ≤ endD) &&
    t.status == "completed"

/-- `SUM(te.regular_hours)` of the attendance query for one employee,
after the `|| 0` guard. -/
def totalRegularHours (startD endD : Int) (db : DB) (eId : Nat) : ℚ :=
  sumOptQ ((db.time_entries.filter (attendanceEligible startD endD eId)).map
    (fun t => t.regular_hours))

/-- `SUM(te.overtime_hours)` of the attendance query for one employee,
after the `|| 0` guard. -/
def totalOvertimeHours (startD endD : Int) (db : DB) (eId : Nat) : ℚ :=
  sumOptQ ((db.time_entries.filter (attendanceEligible startD endD eId)).map
    (fun t => t.overtime_hours))

/-- The `LEFT JOIN payroll_entries` of the attendance query: the employee's
entry for the period, if any. -/
def payrollEntryFor (periodId : Nat) (db : DB) (eId : Nat) : Option PayrollEntry :=
  db.payroll_entries.find?
    (fun p => p.employee_id == eId && p.payroll_period_id == periodId)

/-- `data.payroll_hours || 0`: hours of the employee's payroll entry, `0`
when the entry or the column is missing. -/
def payrollHoursFor (periodId : Nat) (db : DB) (eId : Nat) : ℚ :=
  jsOrQ ((payrollEntryFor periodId db eId).bind (fun p => p.hours_worked)) 0

/-- `data.payroll_overtime || 0`: overtime of the employee's payroll entry,
`0` when the entry or the column is missing. -/
def payrollOvertimeFor (periodId : Nat) (db : DB) (eId : Nat) : ℚ :=
  jsOrQ ((payrollEntryFor periodId db eId).bind (fun p => p.overtime_hours)) 0

/-- Body of the `for` loop of `runAttendanceReconciliation` for one grouped
row: the regular-hours check followed by the overtime-hours check. -/
def attendanceChecksFor (periodId : Nat) (startD endD : Int) (db : DB)
    (e : Employee) : List Discrepancy :=
  let totalReg := totalRegularHours startD endD db e.id
  let totalOt := totalOvertimeHours startD endD db e.id
  let ph := payrollHoursFor periodId db e.id
  let po := payrollOvertimeFor periodId db e.id
  (if |totalReg - ph| > 0.25 then
    [{ type := "attendance", employee_id := e.id,
       discrepancy_type := "regular_hours_mismatch",
       expected_value := totalReg, actual_value := ph,
       variance := ph - totalReg,
       description := "Regular hours mismatch for " ++ employeeTag e }]
  else []) ++
  (if |totalOt - po| > 0.25 then
    [{ type := "attendance", employee_id := e.id,
       discrepancy_type := "overtime_hours_mismatch",
       expected_value := totalOt, actual_value := po,
       variance := po - totalOt,
       description := "Overtime hours mismatch for " ++ employeeTag e }]
  else [])

/-- `runAttendanceReconciliation` (lines 288-355): looks up the period (empty
result when absent), then one grouped row per active employee
(`WHERE e.is_active = true`, `GROUP BY e.id`). -/
def runAttendanceReconciliation (periodId : Nat) (db : DB) : List Discrepancy :=
  match db.payroll_periods.find? (fun p => p.id == periodId) with
  | none => []
  | some period =>
      (db.employees.filter (fun e => e.is_active)).flatMap
        (attendanceChecksFor periodId period.start_date period.end_date db)

/-- The `settingsMap` object built by `reduce` in `runDeductionReconciliation`:
a later row with the same key overwrites an earlier one; outer `none` is an
absent key (`undefined`), `some none` a key whose value parsed to `NaN`. -/
def settingsMap (settings : List SystemSetting) (k : String) : Option (Option ℚ) :=
  settings.foldl
    (fun acc s => if s.setting_key = k then some s.setting_value else acc) none

/-- `entry.basic_pay * (settingsMap.sss_rate || 0.045)`. -/
def expectedSSS (settings : List SystemSetting) (pe : PayrollEntry) : ℚ :=
  pe.basic_pay * jsNumOr (settingsMap settings "sss_rate") 0.045

/-- `entry.basic_pay * (settingsMap.philhealth_rate || 0.0275)`. -/
def expectedPhilHealth (settings : List SystemSetting) (pe : PayrollEntry) : ℚ :=
  pe.basic_pay * jsNumOr (settingsMap settings "philhealth_rate") 0.0275

/-- `entry.basic_pay * (settingsMap.pagibig_rate || 0.02)`. -/
def expectedPagIbig (settings : List SystemSetting) (pe : PayrollEntry) : ℚ :=
  pe.basic_pay * jsNumOr (settingsMap settings "pagibig_rate") 0.02

/-- Body of the `for` loop of `runDeductionReconciliation` for one joined
row: the SSS, PhilHealth and Pag-IBIG checks in order. -/
def deductionChecksFor (settings : List SystemSetting) (e : Employee)
    (pe : PayrollEntry) : List Discrepancy :=
  (if |pe.sss_deduction - expectedSSS settings pe| > 0.01 then
    [{ type := "deductions", employee_id := pe.employee_id,
       discrepancy_type := "sss_deduction_mismatch",
       expected_value := expectedSSS settings pe, actual_value := pe.sss_deduction,
       variance := pe.sss_deduction - expectedSSS settings pe,
       description := "SSS deduction mismatch for " ++ employeeTag e }]
  else []) ++
  (if |pe.philhealth_deduction - expectedPhilHealth settings pe| > 0.01 then
    [{ type := "deductions", employee_id := pe.employee_id,
       discrepancy_type := "philhealth_deduction_mismatch",
       expected_value := expectedPhilHealth settings pe,
       actual_value := pe.philhealth_deduction,
       variance := pe.philhealth_deduction - expectedPhilHealth settings pe,
       description := "PhilHealth deduction mismatch for " ++ employeeTag e }]
  else []) ++
  (if |pe.pagibig_deduction - expectedPagIbig settings pe| > 0.01 then
    [{ type := "deductions", employee_id := pe.employee_id,
       discrepancy_type := "pagibig_deduction_mismatch",
       expected_value := expectedPagIbig settings pe,
       actual_value := pe.pagibig_deduction,
       variance := pe.pagibig_deduction - expectedPagIbig settings pe,
       description := "Pag-IBIG deduction mismatch for " ++ employeeTag e }]
  else [])

/-- `runDeductionReconciliation` (lines 357-426): the settings map plus the
period's entries joined with their employee (inner join). -/
def runDeductionReconciliation (periodId : Nat) (db : DB) : List Discrepancy :=
  (db.payroll_entries.filter (fun pe => pe.payroll_period_id == periodId)).flatMap
    (fun pe =>
      match db.employees.find? (fun e => e.id == pe.employee_id) with
      | some e => deductionChecksFor db.system_settings e pe
      | none => [])

/-- Outcome of the `POST /run/:periodId` handler: 404 when the period does
not exist, otherwise a 200 with the collected results. -/
inductive RunResult where
  | periodNotFound
  | completed (results : List Discrepancy)
deriving DecidableEq

/-- The `POST /run/:periodId` handler (lines 8-76): period lookup, then each
detector guarded only by equality of `reconciliationType` with its own
scope name — an unrecognized scope runs no detector and still completes. -/
def runReconciliation (periodId : Nat) (reconciliationType : String)
    (db : DB) : RunResult :=
  if (db.payroll_periods.filter (fun p => p.id == periodId)).isEmpty then
    .periodNotFound
  else
    let r1 := if reconciliationType = "all" ∨ reconciliationType = "payroll" then
      runPayrollReconciliation periodId db else []
    let r2 := if reconciliationType = "all" ∨ reconciliationType = "attendance" then
      runAttendanceReconciliation periodId db else []
    let r3 := if reconciliationType = "all" ∨ reconciliationType = "deductions" then
      runDeductionReconciliation periodId db else []
    .completed (r1 ++ r2 ++ r3)

/-- `Database.createReconciliationLog`: a single `INSERT` producing one row
with the schema defaults (`status = "pending"`, empty resolution metadata);
`nextId` is the auto-increment id the row receives. -/
def createReconciliationLog (periodId : Nat) (nextId : Nat)
    (d : Discrepancy) : ReconLog :=
  { id := nextId, payroll_period_id := periodId,
    reconciliation_type := d.type, employee_id := d.employee_id,
    discrepancy_type := d.discrepancy_type,
    expected_value := d.expected_value, actual_value := d.actual_value,
    variance := d.variance, description := d.description,
    status := "pending", resolved_by := none, resolved_at := none,
    resolution_notes := none }

/-- The rows `createReconciliationLog` would produce for a whole batch,
with consecutive ids starting at `nextId`. -/
def mkLogs (periodId : Nat) (nextId : Nat) : List Discrepancy → List ReconLog
  | [] => []
  | d :: rest => createReconciliationLog periodId nextId d ::
      mkLogs periodId (nextId + 1) rest

/-- The persistence loop of the run handler (lines 41-52): one awaited
`INSERT` per candidate, no surrounding transaction.  `insertFails id` models
the collaborator failing that particular `INSERT`; the thrown error aborts
the loop (the handler's `catch` answers 500) but the rows already inserted
stay in the store.  Returns the final store and whether the loop finished. -/
def saveResults (periodId : Nat) (insertFails : Nat → Bool) :
    List Discrepancy → Nat → List ReconLog → List ReconLog × Bool
  | [], _, store => (store, true)
  | d :: rest, nextId, store =>
      if insertFails nextId then (store, false)
      else saveResults periodId insertFails rest (nextId + 1)
        (store ++ [createReconciliationLog periodId nextId d])

/-- Outcome of the `PATCH /resolve/:logId` handler: 400 for a status outside
`resolved`/`ignored`, otherwise the 200 success message. -/
inductive ResolveResult where
  | invalidStatus
  | resolvedOk
deriving DecidableEq

/-- Effect of the handler's `UPDATE ... WHERE id = ?` on one row: the row
with the requested id is overwritten unconditionally — its current status is
never consulted. -/
def applyResolution (status : String) (userId : Nat) (now : Int)
    (notes : String) (logId : Nat) (r : ReconLog) : ReconLog :=
  if r.id == logId then
    { r with
      status := status
      resolved_by := some userId
      resolved_at := some now
      resolution_notes := some notes }
  else r

/-- The `PATCH /resolve/:logId` handler (lines 123-157): it validates only
the requested status string, then runs the unconditional `UPDATE` and
answers with the success message — whether or not any row matched. -/
def resolveDiscrepancy (logId : Nat) (status : String) (notes : String)
    (userId : Nat) (now : Int) (store : List ReconLog) :
    ResolveResult × List ReconLog :=
  if ¬ (status = "resolved" ∨ status = "ignored") then
    (.invalidStatus, store)
  else
    (.resolvedOk, store.map (applyResolution status userId now notes logId))

/-- Row of the dashboard's `topEmployees` result set (the selected columns
of the `GROUP BY e.id` query). -/
structure OffenderRow where
  employee_number : String
  first_name : String
  last_name : String
  department : String
  discrepancy_count : Nat
  total_variance : ℚ
deriving DecidableEq

/-- `ORDER BY discrepancy_count DESC, total_variance DESC` as a relation:
`offenderRank a b` holds when `a` may appear before `b`. -/
def offenderRank (a b : OffenderRow) : Prop :=
  b.discrepancy_count < a.discrepancy_count ∨
    (a.discrepancy_count = b.discrepancy_count ∧ b.total_variance ≤ a.total_variance)

instance : DecidableRel offenderRank := fun a b => by
  unfold offenderRank; infer_instance

instance : IsTotal OffenderRow offenderRank := ⟨by
  intro a b
  rcases lt_trichotomy a.discrepancy_count b.discrepancy_count with h | h | h
  · exact Or.inr (Or.inl h)
  · rcases le_total b.total_variance a.total_variance with hv | hv
    · exact Or.inl (Or.inr ⟨h, hv⟩)
    · exact Or.inr (Or.inr ⟨h.symm, hv⟩)
  · exact Or.inl (Or.inl h)⟩

instance : IsTrans OffenderRow offenderRank := ⟨by
  intro a b c hab hbc
  rcases hab with h1 | ⟨h1, hv1⟩ <;> rcases hbc with h2 | ⟨h2, hv2⟩
  · exact Or.inl (h2.trans h1)
  · exact Or.inl (h2 ▸ h1)
  · exact Or.inl (h1 ▸ h2)
  · exact Or.inr ⟨h1.trans h2, hv2.trans hv1⟩⟩

/-- The `WHERE` clause of the dashboard's `topEmployees` query for one log
row: inner joins with `employees` and `payroll_periods`, period start date
within the lookback window (`start_date ≥ cutoff`), status pending. -/
def offenderEligible (cutoff : Int) (db : DB) (rl : ReconLog) : Bool :=
  rl.status == "pending" &&
    db.employees.any (fun e => e.id == rl.employee_id) &&
    db.payroll_periods.any
      (fun pp => pp.id == rl.payroll_period_id && decide (cutoff ≤ pp.start_date))

/-- The `GROUP BY e.id` rows of the `topEmployees` query before ordering:
one row per employee owning at least one eligible log, carrying the count
and the summed absolute variance of their eligible logs. -/
def offenderGroups (cutoff : Int) (store : List ReconLog) (db : DB) :
    List OffenderRow :=
  let rows := store.filter (offenderEligible cutoff db)
  (db.employees.filter (fun e => rows.any (fun rl => rl.employee_id == e.id))).map
    (fun e =>
      let mine := rows.filter (fun rl => rl.employee_id == e.id)
      { employee_number := e.employee_number, first_name := e.first_name,
        last_name := e.last_name, department := e.department,
        discrepancy_count := mine.length,
        total_variance := (mine.map (fun rl => |rl.variance|)).sum })

/-- The dashboard's `topEmployees` query (lines 208-224): grouped rows,
ordered by count then summed absolute variance, both descending, first 10. -/
def topEmployees (cutoff : Int) (store : List ReconLog) (db : DB) :
    List OffenderRow :=
  (List.insertionSort offenderRank (offenderGroups cutoff store db)).take 10

/-! Concrete rows used by the counterexamples and witnesses below. -/

/-- A bi-weekly period covering days 0-13. -/
def samplePeriod : PayrollPeriod :=
  { id := 1, period_name := "P1", start_date := 0, end_date := 13, status := "open" }

/-- An active hourly employee at rate 100. -/
def sampleEmployee : Employee :=
  { id := 7, employee_number := "EMP-7", first_name := "Ana", last_name := "Cruz",
    department := "Ops", hourly_rate := some 100, salary := 0,
    pay_type := "hourly", is_active := true }

/-- The spec's end-to-end scenario: 80 regular and 4 overtime hours at rate
100 but recorded gross pay 8300 (expected 8600); deductions all exact at the
default rates on basic pay 8000; net pay consistent. -/
def sampleEntry : PayrollEntry :=
  { employee_id := 7, payroll_period_id := 1, hours_worked := some 80,
    overtime_hours := some 4, basic_pay := 8000, gross_pay := 8300,
    total_deductions := 1000, net_pay := 7300, sss_deduction := 360,
    philhealth_deduction := 220, pagibig_deduction := 160 }

/-- The tables backing the sample period. -/
def sampleDB : DB :=
  { payroll_periods := [samplePeriod], employees := [sampleEmployee],
    payroll_entries := [sampleEntry], time_entries := [],
    system_settings := [] }

/-- An entry that is wrong in both its gross pay (expected 1000, recorded
900) and its net pay (expected 900 - 100 = 800, recorded 850). -/
def bothEntry : PayrollEntry :=
  { employee_id := 7, payroll_period_id := 1, hours_worked := some 10,
    overtime_hours := some 0, basic_pay := 1000, gross_pay := 900,
    total_deductions := 100, net_pay := 850, sss_deduction := 45,
    philhealth_deduction := 27.5, pagibig_deduction := 20 }

/-- The gross-pay discrepancy the sample entry produces. -/
def sampleGrossDisc : Discrepancy :=
  { type := "payroll", employee_id := 7,
    discrepancy_type := "gross_pay_mismatch", expected_value := 8600,
    actual_value := 8300, variance := -300,
    description := "Gross pay mismatch for Ana Cruz (EMP-7)" }

/-- A log row that an administrator has already resolved. -/
def resolvedLog : ReconLog :=
  { id := 1, payroll_period_id := 1, reconciliation_type := "payroll",
    employee_id := 7, discrepancy_type := "gross_pay_mismatch",
    expected_value := 8600, actual_value := 8300, variance := -300,
    description := "d", status := "resolved", resolved_by := some 5,
    resolved_at := some 10, resolution_notes := some "earlier" }

/-- A still-pending log row with id 2. -/
def pendingLog : ReconLog :=
  { id := 2, payroll_period_id := 1, reconciliation_type := "payroll",
    employee_id := 7, discrepancy_type := "net_pay_mismatch",
    expected_value := 100, actual_value := 90, variance := -10,
    description := "d2", status := "pending", resolved_by := none,
    resolved_at := none, resolution_notes := none }

/-- First candidate of a two-record batch. -/
def batchA : Discrepancy :=
  { type := "payroll", employee_id := 7,
    discrepancy_type := "gross_pay_mismatch", expected_value := 8600,
    actual_value := 8300, variance := -300, description := "a" }

/-- Second candidate of a two-record batch. -/
def batchB : Discrepancy :=
  { type := "payroll", employee_id := 7,
    discrepancy_type := "net_pay_mismatch", expected_value := 7300,
    actual_value := 7200, variance := -100, description := "b" }

/-- Two employees for the dashboard tie-break scenario. -/
def offenderEmployeeA : Employee :=
  { id := 1, employee_number := "E-1", first_name := "Al", last_name := "Ao",
    department := "D", hourly_rate := none, salary := 0,
    pay_type := "hourly", is_active := true }

/-- Second employee of the dashboard tie-break scenario. -/
def offenderEmployeeB : Employee :=
  { id := 2, employee_number := "E-2", first_name := "Bo", last_name := "Bo",
    department := "D", hourly_rate := none, salary := 0,
    pay_type := "hourly", is_active := true }

/-- Period of the dashboard tie-break scenario, starting at day 5. -/
def offenderPeriod : PayrollPeriod :=
  { id := 1, period_name := "P", start_date := 5, end_date := 19,
    status := "open" }

/-- Dashboard scenario tables. -/
def offenderDB : DB :=
  { payroll_periods := [offenderPeriod],
    employees := [offenderEmployeeA, offenderEmployeeB],
    payroll_entries := [], time_entries := [], system_settings := [] }

/-- Pending logs: one per employee (equal counts), employee 2 with the
larger absolute variance. -/
def offenderLogs : List ReconLog :=
  [{ id := 11, payroll_period_id := 1, reconciliation_type := "payroll",
     employee_id := 1, discrepancy_type := "gross_pay_mismatch",
     expected_value := 0, actual_value := 10, variance := 10,
     description := "", status := "pending", resolved_by := none,
     resolved_at := none, resolution_notes := none },
   { id := 12, payroll_period_id := 1, reconciliation_type := "payroll",
     employee_id := 2, discrepancy_type := "gross_pay_mismatch",
     expected_value := 0, actual_value := 15, variance := 15,
     description := "", status := "pending", resolved_by := none,
     resolved_at := none, resolution_notes := none }]

/-- Settings whose `sss_rate` parses to 0 and whose `philhealth_rate` does
not parse to a number. -/
def falsySettings : List SystemSetting :=
  [{ setting_key := "sss_rate", setting_value := some 0 },
   { setting_key := "philhealth_rate", setting_value := none }]

/-! Helper lemmas. -/

lemma jsOrQ_some_self (x : ℚ) : jsOrQ (some x) 0 = x := by
  unfold jsOrQ
  by_cases h : x = 0 <;> simp [h]

/-- C1: counterexample — a resolve request against the sample record whose
status is already `resolved` does not fail with any InvalidTransition error
and does not leave the record unchanged: the handler answers with the
success result and overwrites status, resolver, timestamp and note. -/
theorem C1_counterexample :
    (resolveDiscrepancy 1 "ignored" "again" 9 20 [resolvedLog]).1 =
      ResolveResult.resolvedOk ∧
    (resolveDiscrepancy 1 "ignored" "again" 9 20 [resolvedLog]).2 ≠
      [resolvedLog] := by
  constructor
  · rfl
  · decide

/-- C1 (amended): for any stored record — whatever its current status — and
any requested status in {`resolved`, `ignored`}, the resolve handler
succeeds and unconditionally overwrites the record with the given id with
the new status, resolver identity, timestamp and note (last write wins);
records with other ids are untouched.  No InvalidTransition error exists:
`resolved` and `ignored` are not terminal in the code. -/
theorem C1_resolution_overwrites (logId : Nat) (st notes : String)
    (userId : Nat) (now : Int) (store : List ReconLog)
    (hs : st = "resolved" ∨ st = "ignored") :
    (resolveDiscrepancy logId st notes userId now store).1 =
      ResolveResult.resolvedOk ∧
    (∀ r ∈ store, r.id = logId →
      { r with status := st, resolved_by := some userId, resolved_at := some now, resolution_notes := some notes } ∈
        (resolveDiscrepancy logId st notes userId now store).2) ∧
    (∀ r ∈ store, r.id ≠ logId →
      r ∈ (resolveDiscrepancy logId st notes userId now store).2) := by
  have hg : ¬¬(st = "resolved" ∨ st = "ignored") := not_not_intro hs
  unfold resolveDiscrepancy
  rw [if_neg hg]
  refine ⟨rfl, ?_, ?_⟩
  · intro r hr hid
    have hu : applyResolution st userId now notes logId r =
        { r with status := st, resolved_by := some userId, resolved_at := some now, resolution_notes := some notes } := by
      simp [applyResolution, hid]
    exact hu ▸ List.mem_map_of_mem _ hr
  · intro r hr hid
    have hu : applyResolution st userId now notes logId r = r := by
      simp [applyResolution, hid]
    exact hu ▸ List.mem_map_of_mem _ hr

/-- C1 witness: the amended theorem applied to the already-resolved sample
record with requested status `ignored`. -/
theorem C1_witness :
    (resolveDiscrepancy 1 "ignored" "again" 9 20 [resolvedLog]).1 =
      ResolveResult.resolvedOk :=
  (C1_resolution_overwrites 1 "ignored" "again" 9 20 [resolvedLog]
    (Or.inr rfl)).1

/-- C5: counterexample — no record has id 9, yet the resolve request for id
9 returns the success result, not a NotFound error (the store is indeed
unmodified). -/
theorem C5_counterexample :
    (∀ r ∈ [pendingLog], r.id ≠ 9) ∧
    resolveDiscrepancy 9 "resolved" "n" 3 50 [pendingLog] =
      (ResolveResult.resolvedOk, [pendingLog]) := by
  constructor
  · decide
  · decide

/-- C5 (amended): with a valid requested status, resolving an id carried by
no stored record succeeds with the ok result and leaves every record
unchanged — the handler never reports NotFound. -/
theorem C5_missing_id_succeeds (logId : Nat) (st notes : String)
    (userId : Nat) (now : Int) (store : List ReconLog)
    (hs : st = "resolved" ∨ st = "ignored")
    (habs : ∀ r ∈ store, r.id ≠ logId) :
    resolveDiscrepancy logId st notes userId now store =
      (ResolveResult.resolvedOk, store) := by
  unfold resolveDiscrepancy
  rw [if_neg (not_not_intro hs)]
  have hmap : store.map (applyResolution st userId now notes logId) = store := by
    have h1 : ∀ r ∈ store, applyResolution st userId now notes logId r = id r := by
      intro r hr
      simp [applyResolution, habs r hr]
    rw [List.map_congr_left h1, List.map_id]
  rw [hmap]

/-- C5 witness: the amended theorem applied to the sample store, which has
no record with id 9. -/
theorem C5_witness :
    resolveDiscrepancy 9 "resolved" "n" 3 50 [pendingLog] =
      (ResolveResult.resolvedOk, [pendingLog]) :=
  C5_missing_id_succeeds 9 "resolved" "n" 3 50 [pendingLog] (Or.inl rfl)
    (by decide)

/-- C2: counterexample — persisting a two-candidate batch whose second
`INSERT` fails leaves exactly one of the two records durably recorded:
neither all nor none, so persistence is not all-or-nothing. -/
theorem C2_counterexample :
    (saveResults 1 (fun n => n == 1) [batchA, batchB] 0 []).2 = false ∧
    (saveResults 1 (fun n => n == 1) [batchA, batchB] 0 []).1.length = 1 := by
  constructor
  · rfl
  · rfl

/-- C2 (amended): persistence is a sequential per-record loop with no
transaction: if the first failing `INSERT` is the one for candidate `k`
(zero-based), the run fails but the first `k` candidate records remain
durably recorded — a failed run can leave a partial batch behind. -/
theorem C2_sequential_persistence (periodId : Nat) (insertFails : Nat → Bool)
    (batch : List Discrepancy) (nextId : Nat) (store : List ReconLog)
    (k : Nat) (hk : k < batch.length)
    (hbefore : ∀ j, j < k → insertFails (nextId + j) = false)
    (hfail : insertFails (nextId + k) = true) :
    saveResults periodId insertFails batch nextId store =
      (store ++ mkLogs periodId nextId (batch.take k), false) := by
  induction batch generalizing k nextId store with
  | nil => simp at hk
  | cons d rest ih =>
    cases k with
    | zero =>
      have h0 : insertFails nextId = true := by simpa using hfail
      simp [saveResults, h0, mkLogs]
    | succ k' =>
      have h0 : insertFails nextId = false := by
        simpa using hbefore 0 (Nat.succ_pos k')
      have step : saveResults periodId insertFails (d :: rest) nextId store =
          saveResults periodId insertFails rest (nextId + 1)
            (store ++ [createReconciliationLog periodId nextId d]) := by
        simp [saveResults, h0]
      rw [step, ih (nextId + 1) (store ++ [createReconciliationLog periodId nextId d])
        k' (by simpa using hk)
        (fun j hj => by
          have := hbefore (j + 1) (Nat.succ_lt_succ hj)
          simpa [Nat.add_assoc, Nat.add_comm 1 j] using this)
        (by simpa [Nat.add_assoc, Nat.add_comm 1 k'] using hfail)]
      simp [mkLogs, List.take_succ_cons, List.append_assoc]

/-- C2 witness: the amended theorem applied to the two-candidate batch whose
second insert fails — the persisted rows are exactly the log of the first
candidate. -/
theorem C2_witness :
    saveResults 1 (fun n => n == 1) [batchA, batchB] 0 [] =
      ([createReconciliationLog 1 0 batchA], false) := by
  have h := C2_sequential_persistence 1 (fun n => n == 1) [batchA, batchB]
    0 [] 1 (by decide)
    (fun j hj => by
      have hj0 : j = 0 := Nat.lt_one_iff.mp hj
      subst hj0
      rfl)
    (by rfl)
  simpa [mkLogs] using h

/-- C4: counterexample — `bogus` is none of the four documented scopes, yet
the run completes with an empty result set instead of failing with a
ValidationError; the same period with the `payroll` scope does produce
discrepancies, so the silence is not for lack of data. -/
theorem C4_counterexample :
    ¬ ("bogus" = "all" ∨ "bogus" = "payroll" ∨ "bogus" = "attendance" ∨
        "bogus" = "deductions") ∧
    runReconciliation 1 "bogus" sampleDB = RunResult.completed [] ∧
    runReconciliation 1 "payroll" sampleDB =
      RunResult.completed [sampleGrossDisc] := by
  refine ⟨by decide, by rfl, ?_⟩
  simp +decide [runReconciliation, runPayrollReconciliation, sampleDB,
    sampleEntry, sampleEmployee, samplePeriod, payrollChecksFor,
    calculateExpectedGrossPay, jsOrQ, expectedNetPay, employeeTag,
    sampleGrossDisc]
  norm_num

/-- C4 (amended): a scope argument outside {`all`, `payroll`, `attendance`,
`deductions`} is not rejected: when the period exists, the run completes
normally with an empty batch — no validation of the scope happens. -/
theorem C4_unknown_scope_completes (periodId : Nat) (t : String) (db : DB)
    (hperiod : (db.payroll_periods.filter (fun p => p.id == periodId)).isEmpty = false)
    (h1 : t ≠ "all") (h2 : t ≠ "payroll") (h3 : t ≠ "attendance")
    (h4 : t ≠ "deductions") :
    runReconciliation periodId t db = RunResult.completed [] := by
  simp [runReconciliation, hperiod, h1, h2, h3, h4]

/-- C4 witness: the amended theorem applied to the sample period with the
unrecognized scope `bogus`. -/
theorem C4_witness :
    runReconciliation 1 "bogus" sampleDB = RunResult.completed [] :=
  C4_unknown_scope_completes 1 "bogus" sampleDB (by rfl) (by decide)
    (by decide) (by decide) (by decide)

/-- C3: the pay-consistency detector's expected gross pay equals salary/26
when the classification is `salary` and hours×rate + overtime×rate×1.5
otherwise, and the entry yields exactly one `gross_pay_mismatch` record iff
|actual − expected| > 0.01, carrying expected, actual and
variance = actual − expected. -/
theorem C3_gross_pay_check (e : Employee) (pe : PayrollEntry) :
    (e.pay_type = "salary" → calculateExpectedGrossPay e pe = e.salary / 26) ∧
    (∀ h r ot : ℚ, e.pay_type ≠ "salary" → pe.hours_worked = some h →
      e.hourly_rate = some r → pe.overtime_hours = some ot →
      calculateExpectedGrossPay e pe = h * r + ot * r * 1.5) ∧
    ((payrollChecksFor e pe).filter
        (fun d => d.discrepancy_type == "gross_pay_mismatch")).length =
      (if |pe.gross_pay - calculateExpectedGrossPay e pe| > 0.01 then 1 else 0) ∧
    (∀ d ∈ payrollChecksFor e pe, d.discrepancy_type = "gross_pay_mismatch" →
      d.expected_value = calculateExpectedGrossPay e pe ∧
      d.actual_value = pe.gross_pay ∧
      d.variance = pe.gross_pay - calculateExpectedGrossPay e pe) := by
  refine ⟨?_, ?_, ?_, ?_⟩
  · intro hs
    unfold calculateExpectedGrossPay
    rw [if_pos hs]
  · intro h r ot hs hh hr hot
    unfold calculateExpectedGrossPay
    rw [if_neg hs, hh, hr, hot, jsOrQ_some_self, jsOrQ_some_self,
      jsOrQ_some_self]
  · by_cases hg : |pe.gross_pay - calculateExpectedGrossPay e pe| > 0.01 <;>
      by_cases hn : |pe.net_pay - expectedNetPay pe| > 0.01 <;>
      simp [payrollChecksFor, hg, hn]
  · intro d hd hdt
    simp only [payrollChecksFor] at hd
    rcases List.mem_append.mp hd with h1 | h1
    · split at h1
      · have hde := List.mem_singleton.mp h1
        subst hde
        exact ⟨rfl, rfl, rfl⟩
      · simp at h1
    · split at h1
      · have hde := List.mem_singleton.mp h1
        subst hde
        simp at hdt
      · simp at h1

/-- C3 witness: on the spec's end-to-end scenario (80 regular and 4 overtime
hours at rate 100) the hourly branch of the theorem gives
80×100 + 4×100×1.5. -/
theorem C3_witness :
    calculateExpectedGrossPay sampleEmployee sampleEntry =
      80 * 100 + 4 * 100 * 1.5 :=
  (C3_gross_pay_check sampleEmployee sampleEntry).2.1 80 100 4 (by decide)
    rfl rfl rfl

/-- C8: expected net pay equals the entry's own recorded gross pay minus its
recorded total deductions; a `net_pay_mismatch` is emitted exactly when
|actual − expected| > 0.01; and the check is independent of the gross check —
a single entry can fire both. -/
theorem C8_net_pay_check (e : Employee) (pe : PayrollEntry) :
    ((payrollChecksFor e pe).filter
        (fun d => d.discrepancy_type == "net_pay_mismatch")).length =
      (if |pe.net_pay - (pe.gross_pay - pe.total_deductions)| > 0.01
       then 1 else 0) ∧
    (∀ d ∈ payrollChecksFor e pe, d.discrepancy_type = "net_pay_mismatch" →
      d.expected_value = pe.gross_pay - pe.total_deductions ∧
      d.actual_value = pe.net_pay ∧
      d.variance = pe.net_pay - (pe.gross_pay - pe.total_deductions)) ∧
    (∃ e2 pe2, ((payrollChecksFor e2 pe2).filter
        (fun d => d.discrepancy_type == "gross_pay_mismatch")).length = 1 ∧
      ((payrollChecksFor e2 pe2).filter
        (fun d => d.discrepancy_type == "net_pay_mismatch")).length = 1) := by
  refine ⟨?_, ?_, ?_⟩
  · by_cases hg : |pe.gross_pay - calculateExpectedGrossPay e pe| > 0.01 <;>
      by_cases hn : |pe.net_pay - (pe.gross_pay - pe.total_deductions)| > 0.01 <;>
      simp [payrollChecksFor, expectedNetPay, hg, hn]
  · intro d hd hdt
    simp only [payrollChecksFor] at hd
    rcases List.mem_append.mp hd with h1 | h1
    · split at h1
      · have hde := List.mem_singleton.mp h1
        subst hde
        simp at hdt
      · simp at h1
    · split at h1
      · have hde := List.mem_singleton.mp h1
        subst hde
        exact ⟨rfl, rfl, rfl⟩
      · simp at h1
  · refine ⟨sampleEmployee, bothEntry, ?_, ?_⟩ <;>
      (simp +decide [payrollChecksFor, calculateExpectedGrossPay,
        expectedNetPay, jsOrQ, sampleEmployee, bothEntry, employeeTag]
       norm_num
       all_goals decide)

/-- C8 witness: the entry that is wrong in both gross and net pay yields
exactly one `net_pay_mismatch` record. -/
theorem C8_witness :
    ((payrollChecksFor sampleEmployee bothEntry).filter
        (fun d => d.discrepancy_type == "net_pay_mismatch")).length = 1 := by
  rw [(C8_net_pay_check sampleEmployee bothEntry).1]
  norm_num [bothEntry]

/-- C6: the deduction detector's expected values are basic_pay × rate, the
rate being the configured one when present and nonzero and the documented
default (0.045, 0.0275, 0.02) when the key is absent; each of the three
checks independently emits its mismatch record exactly when
|stored − expected| > 0.01, so the records of one entry number the sum of
the three indicators — zero, one, two, or three. -/
theorem C6_deduction_checks (settings : List SystemSetting) (e : Employee)
    (pe : PayrollEntry) :
    (settingsMap settings "sss_rate" = none →
      expectedSSS settings pe = pe.basic_pay * 0.045) ∧
    (settingsMap settings "philhealth_rate" = none →
      expectedPhilHealth settings pe = pe.basic_pay * 0.0275) ∧
    (settingsMap settings "pagibig_rate" = none →
      expectedPagIbig settings pe = pe.basic_pay * 0.02) ∧
    (∀ v : ℚ, v ≠ 0 → settingsMap settings "sss_rate" = some (some v) →
      expectedSSS settings pe = pe.basic_pay * v) ∧
    (∀ v : ℚ, v ≠ 0 → settingsMap settings "philhealth_rate" = some (some v) →
      expectedPhilHealth settings pe = pe.basic_pay * v) ∧
    (∀ v : ℚ, v ≠ 0 → settingsMap settings "pagibig_rate" = some (some v) →
      expectedPagIbig settings pe = pe.basic_pay * v) ∧
    ((deductionChecksFor settings e pe).filter
        (fun d => d.discrepancy_type == "sss_deduction_mismatch")).length =
      (if |pe.sss_deduction - expectedSSS settings pe| > 0.01
       then 1 else 0) ∧
    ((deductionChecksFor settings e pe).filter
        (fun d => d.discrepancy_type == "philhealth_deduction_mismatch")).length =
      (if |pe.philhealth_deduction - expectedPhilHealth settings pe| > 0.01
       then 1 else 0) ∧
    ((deductionChecksFor settings e pe).filter
        (fun d => d.discrepancy_type == "pagibig_deduction_mismatch")).length =
      (if |pe.pagibig_deduction - expectedPagIbig settings pe| > 0.01
       then 1 else 0) ∧
    (deductionChecksFor settings e pe).length =
      (if |pe.sss_deduction - expectedSSS settings pe| > 0.01
       then 1 else 0) +
      (if |pe.philhealth_deduction - expectedPhilHealth settings pe| > 0.01
       then 1 else 0) +
      (if |pe.pagibig_deduction - expectedPagIbig settings pe| > 0.01
       then 1 else 0) := by
  refine ⟨?_, ?_, ?_, ?_, ?_, ?_, ?_, ?_, ?_, ?_⟩
  · intro hnone
    simp [expectedSSS, jsNumOr, hnone]
  · intro hnone
    simp [expectedPhilHealth, jsNumOr, hnone]
  · intro hnone
    simp [expectedPagIbig, jsNumOr, hnone]
  · intro v hv hval
    simp [expectedSSS, jsNumOr, hval, hv]
  · intro v hv hval
    simp [expectedPhilHealth, jsNumOr, hval, hv]
  · intro v hv hval
    simp [expectedPagIbig, jsNumOr, hval, hv]
  · by_cases h1 : |pe.sss_deduction - expectedSSS settings pe| > 0.01 <;>
      by_cases h2 : |pe.philhealth_deduction - expectedPhilHealth settings pe| > 0.01 <;>
      by_cases h3 : |pe.pagibig_deduction - expectedPagIbig settings pe| > 0.01 <;>
      simp [deductionChecksFor, h1, h2, h3]
  · by_cases h1 : |pe.sss_deduction - expectedSSS settings pe| > 0.01 <;>
      by_cases h2 : |pe.philhealth_deduction - expectedPhilHealth settings pe| > 0.01 <;>
      by_cases h3 : |pe.pagibig_deduction - expectedPagIbig settings pe| > 0.01 <;>
      simp [deductionChecksFor, h1, h2, h3]
  · by_cases h1 : |pe.sss_deduction - expectedSSS settings pe| > 0.01 <;>
      by_cases h2 : |pe.philhealth_deduction - expectedPhilHealth settings pe| > 0.01 <;>
      by_cases h3 : |pe.pagibig_deduction - expectedPagIbig settings pe| > 0.01 <;>
      simp [deductionChecksFor, h1, h2, h3]
  · by_cases h1 : |pe.sss_deduction - expectedSSS settings pe| > 0.01 <;>
      by_cases h2 : |pe.philhealth_deduction - expectedPhilHealth settings pe| > 0.01 <;>
      by_cases h3 : |pe.pagibig_deduction - expectedPagIbig settings pe| > 0.01 <;>
      simp [deductionChecksFor, h1, h2, h3]

/-- C6 witness: with no settings rows, the SSS expectation of the spec
scenario falls back to basic_pay × 0.045. -/
theorem C6_witness :
    expectedSSS [] sampleEntry = sampleEntry.basic_pay * 0.045 :=
  (C6_deduction_checks [] sampleEmployee sampleEntry).1 rfl

/-- C10: a rate-setting key whose value parses to 0 or to a non-number is
treated by the detector exactly like an absent key — the JavaScript falsy
guard substitutes the built-in default, so a rate deliberately configured
as zero is never applied. -/
theorem C10_falsy_rate_defaults (settings : List SystemSetting)
    (pe : PayrollEntry) :
    (∀ k : String, ∀ d : ℚ, settingsMap settings k = some (some 0) →
      jsNumOr (settingsMap settings k) d = jsNumOr none d) ∧
    (∀ k : String, ∀ d : ℚ, settingsMap settings k = some none →
      jsNumOr (settingsMap settings k) d = jsNumOr none d) ∧
    ((settingsMap settings "sss_rate" = some (some 0) ∨
        settingsMap settings "sss_rate" = some none) →
      expectedSSS settings pe = pe.basic_pay * 0.045 ∧
      expectedSSS settings pe = expectedSSS [] pe) ∧
    ((settingsMap settings "philhealth_rate" = some (some 0) ∨
        settingsMap settings "philhealth_rate" = some none) →
      expectedPhilHealth settings pe = pe.basic_pay * 0.0275 ∧
      expectedPhilHealth settings pe = expectedPhilHealth [] pe) ∧
    ((settingsMap settings "pagibig_rate" = some (some 0) ∨
        settingsMap settings "pagibig_rate" = some none) →
      expectedPagIbig settings pe = pe.basic_pay * 0.02 ∧
      expectedPagIbig settings pe = expectedPagIbig [] pe) := by
  refine ⟨?_, ?_, ?_, ?_, ?_⟩
  · intro k d h
    rw [h]
    simp [jsNumOr]
  · intro k d h
    rw [h]
    simp [jsNumOr]
  · intro h
    rcases h with h | h <;>
      (refine ⟨?_, ?_⟩ <;>
        (unfold expectedSSS
         rw [h]
         simp [jsNumOr, settingsMap]))
  · intro h
    rcases h with h | h <;>
      (refine ⟨?_, ?_⟩ <;>
        (unfold expectedPhilHealth
         rw [h]
         simp [jsNumOr, settingsMap]))
  · intro h
    rcases h with h | h <;>
      (refine ⟨?_, ?_⟩ <;>
        (unfold expectedPagIbig
         rw [h]
         simp [jsNumOr, settingsMap]))

/-- C10 witness: with `sss_rate` configured as 0 (and `philhealth_rate`
unparsable), the SSS expectation still uses the default 0.045. -/
theorem C10_witness :
    expectedSSS falsySettings sampleEntry = sampleEntry.basic_pay * 0.045 :=
  ((C10_falsy_rate_defaults falsySettings sampleEntry).2.2.1 (Or.inl rfl)).1

lemma attendanceChecksFor_employee_id (periodId : Nat) (startD endD : Int)
    (db : DB) (e : Employee) :
    ∀ d ∈ attendanceChecksFor periodId startD endD db e,
      d.employee_id = e.id := by
  intro d hd
  simp only [attendanceChecksFor] at hd
  rcases List.mem_append.mp hd with h1 | h1 <;> split at h1 <;> simp_all

/-- C7: the attendance detector considers only active employees; it sums the
regular and overtime hours of completed attendance records inside the
period's date range per employee; a missing payroll entry counts as 0 hours;
and a `regular_hours_mismatch` (resp. `overtime_hours_mismatch`) is emitted
exactly when the absolute difference between summed and payroll hours
exceeds 0.25. -/
theorem C7_attendance_check (periodId : Nat) (startD endD : Int) (db : DB) :
    (∀ d ∈ runAttendanceReconciliation periodId db,
      ∃ e ∈ db.employees, e.is_active = true ∧ d.employee_id = e.id) ∧
    (∀ eId : Nat, totalRegularHours startD endD db eId =
      ((db.time_entries.filter (fun t => t.employee_id == eId &&
          decide (startD ≤ t.date) && decide (t.date ≤ endD) &&
          t.status == "completed")).map
        (fun t => t.regular_hours.getD 0)).sum) ∧
    (∀ eId : Nat, totalOvertimeHours startD endD db eId =
      ((db.time_entries.filter (fun t => t.employee_id == eId &&
          decide (startD ≤ t.date) && decide (t.date ≤ endD) &&
          t.status == "completed")).map
        (fun t => t.overtime_hours.getD 0)).sum) ∧
    (∀ e : Employee,
      ((attendanceChecksFor periodId startD endD db e).filter
          (fun d => d.discrepancy_type == "regular_hours_mismatch")).length =
        (if |totalRegularHours startD endD db e.id -
              payrollHoursFor periodId db e.id| > 0.25 then 1 else 0)) ∧
    (∀ e : Employee,
      ((attendanceChecksFor periodId startD endD db e).filter
          (fun d => d.discrepancy_type == "overtime_hours_mismatch")).length =
        (if |totalOvertimeHours startD endD db e.id -
              payrollOvertimeFor periodId db e.id| > 0.25 then 1 else 0)) ∧
    (∀ eId : Nat, payrollEntryFor periodId db eId = none →
      payrollHoursFor periodId db eId = 0 ∧
      payrollOvertimeFor periodId db eId = 0) := by
  refine ⟨?_, ?_, ?_, ?_, ?_, ?_⟩
  · intro d hd
    unfold runAttendanceReconciliation at hd
    split at hd
    · simp at hd
    · rcases List.mem_flatMap.mp hd with ⟨e, he, hde⟩
      have hef := List.mem_filter.mp he
      exact ⟨e, hef.1, by simpa using hef.2,
        attendanceChecksFor_employee_id periodId _ _ db e d hde⟩
  · intro eId
    simp only [totalRegularHours, sumOptQ, List.map_map]
    rfl
  · intro eId
    simp only [totalOvertimeHours, sumOptQ, List.map_map]
    rfl
  · intro e
    by_cases h1 : |totalRegularHours startD endD db e.id -
        payrollHoursFor periodId db e.id| > 0.25 <;>
      by_cases h2 : |totalOvertimeHours startD endD db e.id -
          payrollOvertimeFor periodId db e.id| > 0.25 <;>
      simp [attendanceChecksFor, h1, h2]
  · intro e
    by_cases h1 : |totalRegularHours startD endD db e.id -
        payrollHoursFor periodId db e.id| > 0.25 <;>
      by_cases h2 : |totalOvertimeHours startD endD db e.id -
          payrollOvertimeFor periodId db e.id| > 0.25 <;>
      simp [attendanceChecksFor, h1, h2]
  · intro eId h
    unfold payrollHoursFor payrollOvertimeFor
    rw [h]
    simp [jsOrQ]

/-- C7 witness: an employee id with no payroll entry in the sample tables is
compared against 0 payroll hours. -/
theorem C7_witness :
    payrollHoursFor 1 sampleDB 99 = 0 ∧ payrollOvertimeFor 1 sampleDB 99 = 0 :=
  (C7_attendance_check 1 0 13 sampleDB).2.2.2.2.2 99 rfl

/-- C9: the dashboard's top-offenders view has at most 10 rows, is ordered
by pending-discrepancy count descending with ties broken by summed absolute
variance descending, and contains only employees that own at least one
pending discrepancy whose period starts inside the lookback window. -/
theorem C9_top_offenders (cutoff : Int) (store : List ReconLog) (db : DB) :
    (topEmployees cutoff store db).length ≤ 10 ∧
    List.Sorted offenderRank (topEmployees cutoff store db) ∧
    (∀ row ∈ topEmployees cutoff store db,
      0 < row.discrepancy_count ∧
      ∃ e ∈ db.employees, e.employee_number = row.employee_number ∧
        ∃ rl ∈ store, rl.employee_id = e.id ∧ rl.status = "pending" ∧
          ∃ pp ∈ db.payroll_periods, pp.id = rl.payroll_period_id ∧
            cutoff ≤ pp.start_date) := by
  refine ⟨List.length_take_le 10 _, ?_, ?_⟩
  · exact List.Pairwise.sublist (List.take_sublist 10 _)
      (List.sorted_insertionSort offenderRank _)
  · intro row hrow
    have h1 : row ∈ List.insertionSort offenderRank
        (offenderGroups cutoff store db) := List.mem_of_mem_take hrow
    have h2 : row ∈ offenderGroups cutoff store db :=
      (List.perm_insertionSort offenderRank _).mem_iff.mp h1
    simp only [offenderGroups] at h2
    rcases List.mem_map.mp h2 with ⟨e, he, hrow_eq⟩
    have hef := List.mem_filter.mp he
    rcases List.any_eq_true.mp hef.2 with ⟨rl, hrl, hbeq⟩
    have hrlf := List.mem_filter.mp hrl
    have helig := hrlf.2
    simp only [offenderEligible, Bool.and_eq_true, beq_iff_eq,
      List.any_eq_true, decide_eq_true_eq] at helig
    obtain ⟨⟨hpend, _⟩, pp, hpp, hppid, hppstart⟩ := helig
    subst hrow_eq
    constructor
    · have hmem : rl ∈ (store.filter (offenderEligible cutoff db)).filter
          (fun rl2 => rl2.employee_id == e.id) :=
        List.mem_filter.mpr ⟨hrl, hbeq⟩
      exact List.length_pos_of_mem hmem
    · exact ⟨e, hef.1, rfl, rl, hrlf.1, beq_iff_eq.mp hbeq, hpend,
        pp, hpp, hppid, hppstart⟩

/-- C9 witness: on the tie-break scenario the view (whose size the theorem
bounds) ranks the employee with summed variance 15 above the one with 10,
their pending counts being equal. -/
theorem C9_witness :
    (topEmployees 0 offenderLogs offenderDB).length ≤ 10 ∧
    (topEmployees 0 offenderLogs offenderDB).map
      (fun r => (r.employee_number, r.discrepancy_count, r.total_variance)) =
      [("E-2", 1, 15), ("E-1", 1, 10)] := by
  refine ⟨(C9_top_offenders 0 offenderLogs offenderDB).1, ?_⟩
  simp +decide [topEmployees, offenderGroups, offenderEligible, offenderLogs,
    offenderDB, offenderEmployeeA, offenderEmployeeB, offenderPeriod,
    List.insertionSort, List.orderedInsert, offenderRank]

end BoltApi
